import Mathlib

/-!
Verification of the target-discovery and metadata-extraction pipeline of
scripts/evaluate.py: frontmatter parsing, title extraction, discovery and
evaluation-plan generation. Python strings are modelled through their
character lists; file reads are modelled as Option String, with none
standing for an open/read/decode failure caught by safe_file_operation.
-/

set_option maxRecDepth 8000

namespace Evaluate

/-- Python whitespace test used by str.strip (ASCII subset; the source files
only contain ASCII whitespace). -/
def pyIsSpace (c : Char) : Bool :=
  c = ' ' || c = '\t' || c = '\n' || c = '\r' || c = '\x0b' || c = '\x0c'

/-- Python str.strip on the character list of a string. -/
def pyStripChars (l : List Char) : List Char :=
  ((l.dropWhile pyIsSpace).reverse.dropWhile pyIsSpace).reverse

/-- Python str.strip. -/
def pyStrip (s : String) : String :=
  String.mk (pyStripChars s.data)

/-- Python content.split with the newline separator, on character lists; the
result is always nonempty (an empty string splits to one empty piece). -/
def splitNl : List Char → List (List Char)
  | [] => [[]]
  | c :: rest =>
    if c = '\n' then [] :: splitNl rest
    else
      match splitNl rest with
      | [] => [[c]]
      | l :: ls => (c :: l) :: ls

/-- Python content.split with the newline separator. -/
def pySplitLines (content : String) : List String :=
  (splitNl content.data).map String.mk

/-- Splits a line at its first colon: the characters before it and after it;
none when the line has no colon. -/
def splitFirstColon : List Char → Option (List Char × List Char)
  | [] => none
  | c :: rest =>
    if c = ':' then some ([], rest)
    else
      match splitFirstColon rest with
      | none => none
      | some (a, b) => some (c :: a, b)

/-- The frontmatter line pattern of evaluate.py (the regex match on
key-colon-value followed by the two strip calls): at least one character
before the first colon, key and value both trimmed. -/
def parseKV (line : String) : Option (String × String) :=
  match splitFirstColon line.data with
  | none => none
  | some ([], _) => none
  | some (a, b) => some (String.mk (pyStripChars a), String.mk (pyStripChars b))

/-- Python startswith for a single character. -/
def startsWithChar (c : Char) : List Char → Bool
  | [] => false
  | d :: _ => d = c

/-- Python endswith for a single character. -/
def endsWithChar (c : Char) (l : List Char) : Bool :=
  startsWithChar c l.reverse

/-- The value begins and ends with a double quote, or begins and ends with a
single quote (the quote test of evaluate.py). -/
def isQuoted (v : List Char) : Bool :=
  (startsWithChar '\x22' v && endsWithChar '\x22' v) ||
  (startsWithChar '\x27' v && endsWithChar '\x27' v)

/-- Quote removal of evaluate.py: the slice dropping the first and last
character, applied when the trimmed value is surrounded by matching quotes. -/
def stripQuotes (v : String) : String :=
  if isQuoted v.data then String.mk ((v.data.drop 1).dropLast) else v

/-- First-match association lookup, mirroring Python dict indexing. -/
def lookupKey {α : Type} (k : String) : List (String × α) → Option α
  | [] => none
  | (k2, v) :: rest => if k2 = k then some v else lookupKey k rest

/-- Python dict assignment: overwrite in place when the key exists, append
otherwise (insertion order preserved). -/
def setKey (fm : List (String × String)) (k v : String) : List (String × String) :=
  if fm.any (fun p => p.1 = k) then fm.map (fun p => if p.1 = k then (k, v) else p)
  else fm ++ [(k, v)]

/-- Processing of one candidate frontmatter line: on a key/value match, store
the trimmed key with the quote-stripped trimmed value; otherwise the mapping
is unchanged. -/
def fmStep (fm : List (String × String)) (line : String) : List (String × String) :=
  match parseKV line with
  | none => fm
  | some (k, v) => setKey fm k (stripQuotes v)

/-- The scanning loop of extract_frontmatter over the lines after the first,
with the enumerate index starting at 1 and the in_frontmatter flag that is
set on the first iteration; a line equal to the delimiter stops the scan. -/
def fmLoop : List String → Nat → Bool → List (String × String) → List (String × String)
  | [], _, _, fm => fm
  | line :: rest, i, inFM, fm =>
    if line = "---" then fm
    else
      let inFM2 := if i = 1 then true else inFM
      fmLoop rest (i + 1) inFM2 (if inFM2 then fmStep fm line else fm)

/-- extract_frontmatter of evaluate.py on the list of lines: empty mapping
unless the first line is exactly the delimiter. -/
def extract_frontmatter_lines : List String → List (String × String)
  | [] => []
  | first :: rest => if first = "---" then fmLoop rest 1 false [] else []

/-- extract_frontmatter of evaluate.py; the argument is the outcome of reading
the file, none standing for a failure caught by safe_file_operation, which
together with the trailing or-coalescing yields the empty mapping. -/
def extract_frontmatter : Option String → List (String × String)
  | none => []
  | some content => extract_frontmatter_lines (pySplitLines content)

/-- Scanning loop with no index bookkeeping, following the spec wording:
every line after the opening delimiter and before the closing one is a
candidate key/value line. -/
def fmLoopSimple : List String → List (String × String) → List (String × String)
  | [], fm => fm
  | line :: rest, fm => if line = "---" then fm else fmLoopSimple rest (fmStep fm line)

/-- Spec-side frontmatter extraction used to state the refinement claim. -/
def extract_frontmatter_simple : List String → List (String × String)
  | [] => []
  | first :: rest => if first = "---" then fmLoopSimple rest [] else []

/-- State update of extract_title on a line whose strip equals the delimiter:
the state is the pair of the in_frontmatter and frontmatter_ended flags; the
first occurrence enters the block, the second marks it closed, and later
occurrences change nothing. -/
def titleStep (st : Bool × Bool) (line : String) : Bool × Bool :=
  if pyStrip line = "---" then
    if !st.1 then (true, st.2)
    else if st.1 && !st.2 then (st.1, true)
    else st
  else st

/-- Python startswith applied with the two-character heading marker. -/
def startsHashSpace (line : String) : Bool :=
  match line.data with
  | c :: d :: _ => c = '#' && d = ' '
  | _ => false

/-- Python slice dropping the first n characters. -/
def stringDrop (n : Nat) (s : String) : String :=
  String.mk (s.data.drop n)

/-- The scanning loop of extract_title: a line whose strip equals the
delimiter updates the state and continues; once frontmatter has ended, the
first heading line yields the trimmed text after the marker. -/
def titleLoop : List String → Bool × Bool → Option String
  | [], _ => none
  | line :: rest, st =>
    if pyStrip line = "---" then titleLoop rest (titleStep st line)
    else if st.2 && startsHashSpace line then some (pyStrip (stringDrop 2 line))
    else titleLoop rest st

/-- Python os.path.basename for POSIX paths: the characters after the last
slash. -/
def afterLastSlash (l : List Char) : List Char :=
  l.foldl (fun acc c => if c = '/' then [] else acc ++ [c]) []

/-- Python str.title restricted to ASCII letters: a letter is uppercased when
the previous character is not a letter and lowercased otherwise; other
characters pass through. -/
def pyTitleChars : List Char → Bool → List Char
  | [], _ => []
  | c :: rest, prevCased =>
    if c.isAlpha then (if prevCased then c.toLower else c.toUpper) :: pyTitleChars rest true
    else c :: pyTitleChars rest false

/-- Filename fallback of extract_title: basename, portion before the first
dot, hyphens replaced by spaces, title-cased. -/
def fallbackTitle (path : String) : String :=
  String.mk (pyTitleChars (((afterLastSlash path.data).takeWhile (fun c => c != '.')).map
    (fun c => if c = '-' then ' ' else c)) false)

/-- The inner operation of extract_title: the scan result when a heading was
found, the filename fallback otherwise. -/
def extract_title_op (content : String) (path : String) : String :=
  match titleLoop (pySplitLines content) (false, false) with
  | some t => t
  | none => fallbackTitle path

/-- extract_title of evaluate.py; none models a read failure. A falsy (empty)
successful result is coalesced to the failure default by the trailing
or-expression of the source. -/
def extract_title (file : Option String) (path : String) : String :=
  match file with
  | none => "Unknown"
  | some content =>
    if extract_title_op content path = "" then "Unknown" else extract_title_op content path

/-- One file matched by the glob of discover_evaluation_targets: its name,
path, and the outcome of reading it (none models a read failure). -/
structure FileEntry where
  name : String
  path : String
  content : Option String
deriving DecidableEq

/-- Evaluation target record assembled by discover_evaluation_targets. -/
structure Target where
  filename : String
  path : String
  title : String
  description : String
  type : String
  frontmatter : List (String × String)
deriving DecidableEq

/-- Assembly of one target record from a matched file. -/
def mkTarget (target_type : String) (f : FileEntry) : Target :=
  let fm := extract_frontmatter f.content
  { filename := f.name
    path := f.path
    title := extract_title f.content f.path
    description := (lookupKey "description" fm).getD "No description available"
    type := target_type
    frontmatter := fm }

/-- Discovery for one category: a missing directory (none) degrades to an
empty list with a warning; otherwise every matched file yields a record. -/
def discoverCategory (target_type : String) (dir : Option (List FileEntry)) : List Target :=
  match dir with
  | none => []
  | some files => files.map (mkTarget target_type)

/-- discover_evaluation_targets over the configured category/directory
pairs. -/
def discover_evaluation_targets (dirs : List (String × Option (List FileEntry))) :
    List (String × List Target) :=
  dirs.map (fun p => (p.1, discoverCategory p.1 p.2))

/-- The CONFIG models list of evaluate.py. -/
def CONFIG_models : List String :=
  ["GPT-4.1-mini", "Phi-4-mini-instruct", "Meta-Llama-3.1-8B-Instruct", "Mistral-Nemo"]

/-- The CONFIG metrics list of evaluate.py. -/
def CONFIG_metrics : List String :=
  ["accuracy", "relevance", "completeness", "clarity", "consistency",
   "response_time", "token_usage", "cost_efficiency"]

/-- Target reference embedded in a matrix entry. -/
structure EvalTargetRef where
  type : String
  filename : String
  title : String
  description : String
deriving DecidableEq

/-- One evaluation-matrix entry; metric values start as none (JSON null). -/
structure EvalEntry where
  target : EvalTargetRef
  model : String
  metrics : List (String × Option String)
  status : String
  test_cases : List String
deriving DecidableEq

/-- The matrix entry built by generate_evaluation_plan for one
target/model pair. -/
def mkEvalEntry (target_type : String) (item : Target) (model : String) : EvalEntry :=
  { target := { type := target_type, filename := item.filename, title := item.title,
                description := item.description }
    model := model
    metrics := CONFIG_metrics.map (fun m => (m, (none : Option String)))
    status := "pending"
    test_cases := ["standard_use_case", "edge_cases", "context_variations", "consistency_check"] }

/-- Inner loops of the matrix construction: all models for the items of one
category, in order. -/
def matrixFor (target_type : String) (items : List Target) : List EvalEntry :=
  items.foldr (fun item acc => CONFIG_models.map (mkEvalEntry target_type item) ++ acc) []

/-- The full evaluation matrix: nested loops over categories, items and
models. -/
def evalMatrix (targets : List (String × List Target)) : List EvalEntry :=
  targets.foldr (fun p acc => matrixFor p.1 p.2 ++ acc) []

/-- Plan metadata (the nondeterministic generation timestamp is omitted). -/
structure PlanMetadata where
  total_targets : Nat
  targets_by_type : List (String × Nat)
deriving DecidableEq

/-- The evaluation plan of generate_evaluation_plan. -/
structure Plan where
  metadata : PlanMetadata
  evaluation_matrix : List EvalEntry
  recommendations : List String
deriving DecidableEq

/-- generate_evaluation_plan of evaluate.py. -/
def generate_evaluation_plan (targets : List (String × List Target)) : Plan :=
  { metadata :=
      { total_targets := (targets.map (fun p => p.2.length)).sum
        targets_by_type := targets.map (fun p => (p.1, p.2.length)) }
    evaluation_matrix := evalMatrix targets
    recommendations := [] }

/-- Sample target used to instantiate the plan theorem. -/
def sampleTarget1 : Target :=
  { filename := "a.prompt.md", path := "../prompts/a.prompt.md", title := "A",
    description := "first sample", type := "prompts", frontmatter := [] }

/-- Second sample target used to instantiate the plan theorem. -/
def sampleTarget2 : Target :=
  { filename := "b.instructions.md", path := "../instructions/b.instructions.md", title := "B",
    description := "second sample", type := "instructions", frontmatter := [] }

/-- Sample discovery mapping with two targets in two categories. -/
def sampleTargets : List (String × List Target) :=
  [("prompts", [sampleTarget1]), ("instructions", [sampleTarget2])]

/-- Once the in_frontmatter flag is true it stays true, so the indexed scan
agrees with the index-free spec loop. -/
theorem fmLoop_true (rest : List String) :
    ∀ (i : Nat) (fm : List (String × String)), fmLoop rest i true fm = fmLoopSimple rest fm := by
  induction rest with
  | nil => intro i fm; rfl
  | cons line rest ih =>
    intro i fm
    simp only [fmLoop, fmLoopSimple]
    by_cases h : line = "---"
    · simp [h]
    · simp [h, ih]

/-- From the entry state of the scan (index 1, flag false) the indexed scan
agrees with the index-free spec loop. -/
theorem fmLoop_start (rest : List String) (fm : List (String × String)) :
    fmLoop rest 1 false fm = fmLoopSimple rest fm := by
  cases rest with
  | nil => rfl
  | cons line rest =>
    simp only [fmLoop, fmLoopSimple]
    by_cases h : line = "---"
    · simp [h]
    · simp [h, fmLoop_true]

/-- With no closing delimiter among the lines, the scan folds the key/value
step over every line. -/
theorem fmLoopSimple_no_delim (rest : List String) :
    ∀ fm, "---" ∉ rest → fmLoopSimple rest fm = rest.foldl fmStep fm := by
  induction rest with
  | nil => intro fm _; rfl
  | cons line rest ih =>
    intro fm h
    have h1 : line ≠ "---" := fun e => h (by simp [e])
    simp only [fmLoopSimple, List.foldl]
    rw [if_neg h1]
    exact ih _ (fun hm => h (List.mem_cons_of_mem _ hm))

/-- When no line strips to the delimiter, the frontmatter_ended flag never
becomes true, so the title scan finds nothing. -/
theorem titleLoop_no_delim (lines : List String) :
    ∀ (a : Bool), (∀ l ∈ lines, pyStrip l ≠ "---") → titleLoop lines (a, false) = none := by
  induction lines with
  | nil => intro a _; rfl
  | cons line rest ih =>
    intro a h
    have h1 : pyStrip line ≠ "---" := h line (List.mem_cons_self _ _)
    simp only [titleLoop]
    rw [if_neg h1]
    simpa using ih a (fun l hl => h l (List.mem_cons_of_mem _ hl))

/-- Every matrix entry is built by mkEvalEntry for some item of its
category. -/
theorem mem_matrixFor {e : EvalEntry} {target_type : String} {items : List Target}
    (h : e ∈ matrixFor target_type items) :
    ∃ item model, e = mkEvalEntry target_type item model := by
  induction items with
  | nil => simp [matrixFor] at h
  | cons a l ih =>
    have hsplit : matrixFor target_type (a :: l) =
        CONFIG_models.map (mkEvalEntry target_type a) ++ matrixFor target_type l := rfl
    rw [hsplit] at h
    rcases List.mem_append.1 h with h1 | h2
    · rcases List.mem_map.1 h1 with ⟨model, _, he⟩
      exact ⟨a, model, he.symm⟩
    · exact ih h2

/-- Every entry of the evaluation matrix is built by mkEvalEntry. -/
theorem mem_evalMatrix {e : EvalEntry} {targets : List (String × List Target)}
    (h : e ∈ evalMatrix targets) :
    ∃ target_type item model, e = mkEvalEntry target_type item model := by
  induction targets with
  | nil => simp [evalMatrix] at h
  | cons p ts ih =>
    have hsplit : evalMatrix (p :: ts) = matrixFor p.1 p.2 ++ evalMatrix ts := rfl
    rw [hsplit] at h
    rcases List.mem_append.1 h with h1 | h2
    · rcases mem_matrixFor h1 with ⟨item, model, he⟩
      exact ⟨p.1, item, model, he⟩
    · exact ih h2

/-- Each matrix entry has status pending and every configured metric bound to
none. -/
theorem mkEvalEntry_props (target_type : String) (item : Target) (model : String) :
    (mkEvalEntry target_type item model).status = "pending" ∧
    ∀ m ∈ CONFIG_metrics, lookupKey m (mkEvalEntry target_type item model).metrics = some none := by
  refine ⟨rfl, ?_⟩
  show ∀ m ∈ CONFIG_metrics,
    lookupKey m (CONFIG_metrics.map (fun x => (x, (none : Option String)))) = some none
  decide

/-- The matrix over one category has one entry per item and model. -/
theorem matrixFor_length (target_type : String) (items : List Target) :
    (matrixFor target_type items).length = items.length * CONFIG_models.length := by
  induction items with
  | nil => rfl
  | cons a l ih =>
    show (CONFIG_models.map (mkEvalEntry target_type a) ++ matrixFor target_type l).length =
      (a :: l).length * CONFIG_models.length
    rw [List.length_append, List.length_map, ih, List.length_cons, Nat.succ_mul, Nat.add_comm]

/-- The full matrix has one entry per target and model. -/
theorem evalMatrix_length (targets : List (String × List Target)) :
    (evalMatrix targets).length = (targets.map (fun p => p.2.length)).sum * CONFIG_models.length := by
  induction targets with
  | nil => rfl
  | cons p ts ih =>
    show (matrixFor p.1 p.2 ++ evalMatrix ts).length =
      ((p :: ts).map (fun p => p.2.length)).sum * CONFIG_models.length
    rw [List.length_append, matrixFor_length, ih, List.map_cons, List.sum_cons, Nat.add_mul]

/-- Claim C1, counterexample: the file consisting of the single line with a
heading marker has first line not the delimiter and a heading line, yet
extract_title ignores the heading (the scan only accepts headings after a
closed frontmatter block) and falls back to the filename. -/
theorem c1_counterexample :
    extract_title (some "# Hello") "my-file.md" = "My File" ∧ ("My File" : String) ≠ "Hello" := by
  decide

/-- Claim C1 (amended): when no line of the file strips to the delimiter (in
particular the first line is not the delimiter and no frontmatter is opened),
extract_title never returns a heading-derived title: it returns the filename
fallback, coalesced to Unknown when that fallback is empty, even when a line
starting with the heading marker exists. -/
theorem c1_heading_needs_closed_frontmatter (content path : String)
    (h : ∀ l ∈ pySplitLines content, pyStrip l ≠ "---") :
    extract_title (some content) path =
      if fallbackTitle path = "" then "Unknown" else fallbackTitle path := by
  have h0 : extract_title_op content path = fallbackTitle path := by
    simp only [extract_title_op, titleLoop_no_delim (pySplitLines content) false h]
  simp only [extract_title, h0]

/-- Claim C1, witness for the amended statement at a concrete file containing
a heading line. -/
theorem c1_witness :
    extract_title (some "Intro text\n# A Heading") "some-file.prompt.md" = "Some File" := by
  have h := c1_heading_needs_closed_frontmatter "Intro text\n# A Heading" "some-file.prompt.md"
    (by decide)
  exact h.trans (by decide)

/-- Claim C2: for every file whose first line is not exactly the delimiter,
extract_frontmatter returns the empty mapping, regardless of the rest of the
content. -/
theorem c2_no_opening_delimiter (content : String)
    (h : (pySplitLines content).head? ≠ some "---") :
    extract_frontmatter (some content) = [] := by
  simp only [extract_frontmatter]
  cases hl : pySplitLines content with
  | nil => rfl
  | cons a l =>
    rw [hl] at h
    simp only [List.head?] at h
    have ha : a ≠ "---" := fun e => h (by rw [e])
    simp [extract_frontmatter_lines, ha]

/-- Claim C2, witness: a file with later delimiter lines and key lines still
yields the empty mapping when its first line is not the delimiter. -/
theorem c2_witness : extract_frontmatter (some "hello\n---\nkey: v\n---") = [] :=
  c2_no_opening_delimiter "hello\n---\nkey: v\n---" (by decide)

/-- Claim C3: a file opening a frontmatter block with no closing delimiter
terminates (the scan is structural recursion on the line list) and returns
the fold of the key/value step over every remaining line up to end-of-file. -/
theorem c3_unterminated_frontmatter (content : String) (rest : List String)
    (h1 : pySplitLines content = "---" :: rest) (h2 : "---" ∉ rest) :
    extract_frontmatter (some content) = rest.foldl fmStep [] := by
  have e1 : extract_frontmatter_lines ("---" :: rest) = fmLoop rest 1 false [] := by
    simp [extract_frontmatter_lines]
  simp only [extract_frontmatter, h1, e1]
  rw [fmLoop_start, fmLoopSimple_no_delim rest [] h2]

/-- Claim C3, witness on a concrete unterminated file. -/
theorem c3_witness :
    extract_frontmatter (some "---\nkey: value\nplain line") = [("key", "value")] := by
  have h := c3_unterminated_frontmatter "---\nkey: value\nplain line"
    ["key: value", "plain line"] (by decide) (by decide)
  exact h.trans (by decide)

/-- Claim C4: over a discovery mapping with N targets in total and the M
configured models, the plan matrix has exactly N times M entries, each with
status pending and every configured metric key bound to none. -/
theorem c4_plan_matrix (targets : List (String × List Target)) :
    (generate_evaluation_plan targets).evaluation_matrix.length =
      (targets.map (fun p => p.2.length)).sum * CONFIG_models.length ∧
    ∀ e ∈ (generate_evaluation_plan targets).evaluation_matrix,
      e.status = "pending" ∧ ∀ m ∈ CONFIG_metrics, lookupKey m e.metrics = some none := by
  refine ⟨evalMatrix_length targets, ?_⟩
  intro e he
  obtain ⟨target_type, item, model, rfl⟩ := mem_evalMatrix he
  exact mkEvalEntry_props target_type item model

/-- Claim C4, witness: two targets and four models give eight entries, with
pending status and null metrics on a sample entry. -/
theorem c4_witness :
    (generate_evaluation_plan sampleTargets).evaluation_matrix.length = 8 ∧
    (mkEvalEntry "prompts" sampleTarget1 "GPT-4.1-mini").status = "pending" ∧
    lookupKey "accuracy" (mkEvalEntry "prompts" sampleTarget1 "GPT-4.1-mini").metrics =
      some none := by
  have h := c4_plan_matrix sampleTargets
  refine ⟨h.1.trans (by decide), ?_, ?_⟩
  · exact (h.2 _ (by decide)).1
  · exact (h.2 _ (by decide)).2 "accuracy" (by decide)

/-- Claim C5: a matching key/value line inside frontmatter stores the trimmed
value with one layer of matching surrounding quotes stripped when present,
and stores it unchanged (already trimmed) otherwise. -/
theorem c5_quote_stripping (line k v : String) (h : parseKV line = some (k, v)) :
    extract_frontmatter_lines ["---", line] = [(k, stripQuotes v)] ∧
    (isQuoted v.data = true → stripQuotes v = String.mk ((v.data.drop 1).dropLast)) ∧
    (isQuoted v.data = false → stripQuotes v = v) := by
  have hne : line ≠ "---" := by
    intro e
    rw [e] at h
    have hd : parseKV "---" = none := by decide
    rw [hd] at h
    exact Option.noConfusion h
  refine ⟨?_, ?_, ?_⟩
  · have e1 : extract_frontmatter_lines ["---", line] = fmLoop [line] 1 false [] := by
      simp [extract_frontmatter_lines]
    rw [e1]
    simp only [fmLoop, if_neg hne]
    simp [fmStep, h, setKey]
  · intro hq; simp [stripQuotes, hq]
  · intro hq; simp [stripQuotes, hq]

/-- Claim C5, witness: a double-quoted value loses exactly one layer of
quotes, and an unquoted value is stored trimmed but unchanged. -/
theorem c5_witness :
    extract_frontmatter_lines ["---", "key: \"quoted value\""] = [("key", "quoted value")] ∧
    extract_frontmatter_lines ["---", "other:   plain value  "] = [("other", "plain value")] := by
  constructor
  · have h := (c5_quote_stripping "key: \"quoted value\"" "key" "\"quoted value\""
      (by decide)).1
    exact h.trans (by decide)
  · have h := (c5_quote_stripping "other:   plain value  " "other" "plain value"
      (by decide)).1
    exact h.trans (by decide)

/-- Claim C6, counterexample: a line that differs from the delimiter only by
surrounding whitespace does toggle the state of extract_title (the source
strips the line before comparing), so a heading after it and one exact
delimiter is returned instead of the filename fallback. -/
theorem c6_counterexample :
    titleStep (false, false) " --- " = (true, false) ∧
    extract_title (some " --- \n---\n# T") "f.md" = "T" := by
  decide

/-- Claim C6 (amended): in extract_title a line toggles the frontmatter state
if and only if the line stripped of surrounding whitespace equals the
delimiter; lines differing from it only by surrounding whitespace do toggle
(first occurrence enters the block, second marks it closed, later ones change
nothing). -/
theorem c6_strip_toggles (line : String) :
    (pyStrip line ≠ "---" → ∀ st : Bool × Bool, titleStep st line = st) ∧
    (pyStrip line = "---" →
      titleStep (false, false) line = (true, false) ∧
      titleStep (false, true) line = (true, true) ∧
      titleStep (true, false) line = (true, true) ∧
      titleStep (true, true) line = (true, true)) := by
  constructor
  · intro h st
    simp [titleStep, h]
  · intro h
    refine ⟨?_, ?_, ?_, ?_⟩ <;> simp [titleStep, h]

/-- Claim C6, witness: the whitespace-padded delimiter enters the block and
the exact delimiter closes it. -/
theorem c6_witness :
    titleStep (false, false) " --- " = (true, false) ∧
    titleStep (true, false) "---" = (true, true) := by
  refine ⟨((c6_strip_toggles " --- ").2 (by decide)).1, ?_⟩
  exact ((c6_strip_toggles "---").2 (by decide)).2.2.1

/-- Claim C7, counterexample: a file with no qualifying heading whose base
name has an empty portion before the first dot gets result Unknown, not the
computed (empty) fallback. -/
theorem c7_counterexample :
    titleLoop (pySplitLines "hello") (false, false) = none ∧
    fallbackTitle ".md" = "" ∧
    extract_title (some "hello") ".md" = "Unknown" := by
  decide

/-- Claim C7 (amended): for every readable file in which the heading scan
finds nothing and whose filename fallback (portion of the basename before the
first dot, hyphens to spaces, words title-cased) is nonempty, extract_title
returns that fallback; when the fallback is empty, the result is Unknown. -/
theorem c7_fallback_title (content path : String)
    (h1 : titleLoop (pySplitLines content) (false, false) = none)
    (h2 : fallbackTitle path ≠ "") :
    extract_title (some content) path = fallbackTitle path := by
  have h0 : extract_title_op content path = fallbackTitle path := by
    simp only [extract_title_op, h1]
  simp only [extract_title, h0, if_neg h2]

/-- Claim C7, witness: the spec example file name yields the title-cased
fallback. -/
theorem c7_witness :
    extract_title (some "no heading in here") "my-cool-prompt.prompt.md" = "My Cool Prompt" := by
  have h := c7_fallback_title "no heading in here" "my-cool-prompt.prompt.md"
    (by decide) (by decide)
  exact h.trans (by decide)

/-- Claim C8: a failed read yields the empty mapping from extract_frontmatter
and the string Unknown from extract_title; discovery yields one record per
matched file of an existing directory and one category entry per configured
directory, so it always completes with a possibly degraded record for every
matched file. -/
theorem c8_failures_never_fatal :
    extract_frontmatter none = [] ∧
    (∀ path : String, extract_title none path = "Unknown") ∧
    (∀ (target_type : String) (files : List FileEntry),
      (discoverCategory target_type (some files)).length = files.length) ∧
    (∀ dirs : List (String × Option (List FileEntry)),
      (discover_evaluation_targets dirs).length = dirs.length) := by
  refine ⟨rfl, fun _ => rfl, fun tt files => ?_, fun dirs => ?_⟩
  · simp [discoverCategory]
  · simp [discover_evaluation_targets]

/-- Claim C9: the special handling of the first post-delimiter line (the
index-equals-one case setting the in-block flag) is redundant: on every
input the scan computes the same mapping as the index-free definition in
which every line before the closing delimiter is a candidate key/value
line. -/
theorem c9_first_line_flag_redundant (lines : List String) :
    extract_frontmatter_lines lines = extract_frontmatter_simple lines := by
  cases lines with
  | nil => rfl
  | cons first rest =>
    simp only [extract_frontmatter_lines, extract_frontmatter_simple]
    by_cases h : first = "---"
    · simp [h, fmLoop_start]
    · simp [h]

/-- Claim C10: whenever the title computed by the scan or the fallback is the
empty string, the caller-visible result of extract_title is Unknown, because
the falsy successful result is coalesced to the failure default. -/
theorem c10_empty_title_coalesced (content path : String)
    (h : extract_title_op content path = "") :
    extract_title (some content) path = "Unknown" := by
  simp [extract_title, h]

/-- Claim C10, witness: a heading marker followed only by whitespace yields
the empty scan title, and the result is Unknown. -/
theorem c10_witness : extract_title (some "---\n---\n# ") "x.md" = "Unknown" :=
  c10_empty_title_coalesced "---\n---\n# " "x.md" (by decide)

end Evaluate
